import Mathlib

/-!
Shallow embedding of the GeoDataKit rose-diagram module
(src/GeoDataKit/geoplot.py): the data model, RoseDiagram.__init__,
RoseDiagram.set_data and RoseDiagram.show, together with theorems settling
the specification claims about them.

Conventions used throughout the embedding:
* A DataFrame cell holds a `PyVal`; `PyVal.rad c` denotes the real number
  `c * π / 180` and is produced only by the degree-to-radian conversion
  (np.deg2rad), mirroring the derived values of the source. Exact
  rational/real arithmetic stands in for floating point.
* Reading a not-yet-assigned object attribute raises AttributeError, a
  failed assert raises AssertionError, and an ill-typed primitive operation
  raises TypeError; these are the `PyError` constructors, each tagged with
  its site.
-/

/-- A Python value stored in a DataFrame cell. `num q` is a plain number,
`str s` a string, `pynone` the Python None value, and `rad c` models the
floating-point number `c * π / 180` as produced by np.deg2rad on the
number c (only the degree-to-radian conversions of the source create such
values). -/
inductive PyVal where
  | num : ℚ → PyVal
  | rad : ℚ → PyVal
  | str : String → PyVal
  | pynone : PyVal
deriving DecidableEq, Repr

/-- The real number a numeric cell denotes; strings and None denote no real
number. -/
def PyVal.denotes : PyVal → ℝ → Prop
  | .num q, r => r = (q : ℝ)
  | .rad c, r => r = (c : ℝ) * Real.pi / 180
  | .str _, _ => False
  | .pynone, _ => False

/-- The check isinstance(v, numbers.Number) of geoplot.py line 201. -/
def PyVal.isNumber : PyVal → Bool
  | .num _ => true
  | .rad _ => true
  | .str _ => false
  | .pynone => false

/-- np.deg2rad on a single cell: multiplies the value by π / 180, so a
plain number d becomes the radian value d * π / 180, i.e. rad d. On a
non-numeric cell the ufunc raises TypeError (`none` here); re-converting
an already derived rad cell does not occur in the flows of the source and
is also mapped to `none`. -/
def deg2radCell : PyVal → Option PyVal
  | .num d => some (.rad d)
  | _ => none

/-- np.deg2rad over a whole column: succeeds only if every cell converts,
otherwise the whole operation raises and no value is produced. -/
def deg2radSeries : List PyVal → Option (List PyVal)
  | [] => some []
  | v :: vs =>
    match deg2radCell v, deg2radSeries vs with
    | some r, some rs => some (r :: rs)
    | _, _ => none

/-- The expression -x / 2.0 on a numeric Python value, used for the lower
end of the histogram bin range in show (geoplot.py line 319); bin widths
are always numeric, so the remaining cases are unreachable and returned
unchanged. -/
def PyVal.negHalf : PyVal → PyVal
  | .num b => .num (-(b / 2))
  | .rad c => .rad (-(c / 2))
  | v => v

/-- How matplotlib renders an optional label value: Python None becomes the
empty text. -/
def pyStr (v : Option String) : String := v.getD ""

/-- A pandas DataFrame: labelled columns in dataset order, each holding the
list of cell values of that column (pandas keeps every column the same
length). -/
structure DataFrame where
  cols : List (String × List PyVal)
deriving DecidableEq, Repr

/-- The column labels in dataset order (df.columns). -/
def DataFrame.names (df : DataFrame) : List String := df.cols.map (fun p => p.1)

/-- Column lookup df[c]. -/
def DataFrame.getCol (df : DataFrame) (c : String) : Option (List PyVal) :=
  (df.cols.find? (fun p => p.1 == c)).map (fun p => p.2)

/-- Helper of DataFrame.setCol on the column list: replace the column with
the given label if it exists, otherwise append a new column at the end. -/
def setColAux : List (String × List PyVal) → String → List PyVal →
    List (String × List PyVal)
  | [], c, vs => [(c, vs)]
  | p :: ps, c, vs =>
    if p.1 == c then (c, vs) :: ps else p :: setColAux ps c vs

/-- Column assignment df[c] = vs: replaces the column when the label
already exists, otherwise appends a new column at the end. -/
def DataFrame.setCol (df : DataFrame) (c : String) (vs : List PyVal) : DataFrame :=
  ⟨setColAux df.cols c vs⟩

/-- The attribute df.empty: true when the frame has no columns or no rows
(pandas keeps every column the same length, so the first column decides
the row count). -/
def DataFrame.isEmpty (df : DataFrame) : Bool :=
  match df.cols with
  | [] => true
  | (_, vs) :: _ => vs.isEmpty

/-- Source line 201: the labels of the columns whose first value
(df[col].iloc[0]) is a number, in dataset column order. -/
def numberColumns (df : DataFrame) : List String :=
  (df.cols.filter (fun p =>
    match p.2.head? with
    | some v => v.isNumber
    | none => false)).map (fun p => p.1)

/-- A Python exception raised by the embedded code, tagged with its site. -/
inductive PyError where
  | attributeError (attr : String)
  | assertionError (check : String)
  | typeError (ctx : String)
deriving DecidableEq, Repr

/-- The data argument of set_data: Python None, a DataFrame, or any other
object (tagged by its Python type name, e.g. "list" or "int"). -/
inductive PyData where
  | pynone : PyData
  | frame : DataFrame → PyData
  | other : String → PyData
deriving DecidableEq, Repr

/-- Outcome of a mutating method call on the object: `ok` with the new
object state, or `err` with the raised exception together with the object
state at the moment of the raise (an uncaught exception leaves all prior
in-place mutations visible to the caller). -/
inductive POutcome (α : Type) where
  | ok : α → POutcome α
  | err : PyError → α → POutcome α
deriving DecidableEq, Repr

/-- The keyword arguments of the RoseDiagram methods. An outer `none` means
the keyword was not supplied by the caller; for keywords whose Python value
may itself be None the payload is again an Option. -/
structure Kargs where
  verbose : Option Bool := none
  degrees : Option Bool := none
  bin_width : Option ℚ := none
  direction_label : Option (Option String) := none
  category_label : Option (Option String) := none
  stat_type : Option String := none
  bin_shape : Option String := none
  category_order : Option (Option (List String)) := none
  category_interaction : Option String := none
  x_axis_label : Option (Option String) := none
  y_axis_label : Option (Option String) := none
  y_axis_label_padding : Option ℚ := none
  y_axis_angle : Option ℚ := none
  edge_color : Option String := none
  edge_width : Option ℚ := none
  color_palette : Option String := none
  alpha : Option ℚ := none
  shrink : Option ℚ := none
deriving DecidableEq, Repr

/-- Modelled from the spec: the helper get_kargs lives in GeoDataKit.utils,
which is not among the provided source files; per the spec, options are
resolved as "defaults overridden by caller-supplied overrides", i.e. the
supplied keyword value when present and the default otherwise. -/
def get_kargs {α : Type} (supplied : Option α) (default : α) : α :=
  supplied.getD default

/-- Modelled from the spec: the external statistical histogram renderer
(seaborn, outside the provided source files) labels the radial axis with a
description of the chosen statistic, e.g. "Count" for "count". -/
def statDefaultLabel (stat : String) : String := stat.capitalize

/-- The attributes of a RoseDiagram object. `verbose` and `bin_width_rad`
are assigned unconditionally by the constructor; the remaining attributes
are assigned only on some paths of set_data, so they are wrapped in an
outer Option whose `none` means the attribute was never assigned (reading
it raises AttributeError); the inner Option is the Python None value. -/
structure RoseState where
  verbose : Bool
  bin_width_rad : PyVal
  data : Option (Option DataFrame) := none
  direction_label : Option (Option String) := none
  category_label : Option (Option String) := none
  direction_label_rad : Option (Option String) := none
deriving DecidableEq, Repr

/-- RoseDiagram.set_data (geoplot.py lines 191-213). -/
def set_data (st : RoseState) (data : PyData) (k : Kargs) : POutcome RoseState :=
  match data with
  | .pynone =>
    -- line 192: the test `self.verbose and (self.data is not None)` reads
    -- self.data only when verbose is true; on a freshly constructed object
    -- that attribute has not been assigned yet.
    if st.verbose then
      match st.data with
      | none => .err (.attributeError "data") st
      | some _ => .ok { st with data := some none }   -- line 193
    else .ok { st with data := some none }            -- line 193
  | .other _ =>
    -- line 195: the isinstance assert fails, and building its message
    -- concatenates a str with a type object, so a TypeError is raised;
    -- the object state is untouched.
    .err (.typeError "assert_message_concat") st
  | .frame df =>
    let st1 := { st with data := some (some df) }     -- line 196
    let st2 := { st1 with
      direction_label := some (get_kargs k.direction_label none) }  -- line 199
    if df.isEmpty then
      .err (.assertionError "data_nonempty") st2      -- line 200
    else
      match numberColumns df with                     -- line 201
      | [] => .err (.assertionError "number_column_exists") st2  -- line 202
      | dl :: _ =>
        let st3 := { st2 with direction_label := some (some dl) }  -- line 203
        let st4 := { st3 with
          category_label := some (get_kargs k.category_label none) }  -- line 205
        let degrees := get_kargs k.degrees true       -- line 206
        -- lines 209-211: at this point direction_label holds a column
        -- name, never Python None, so the `is not None` test is true and
        -- the condition reduces to `degrees`.
        let dlr := if degrees then dl ++ "_rad" else dl
        let st5 := { st4 with direction_label_rad := some (some dlr) }
        if degrees then
          -- line 213: the whole direction column is converted and the
          -- result assigned; a non-numeric cell makes np.deg2rad raise
          -- before any assignment happens.
          match (df.getCol dl).bind deg2radSeries with
          | some rs => .ok { st5 with data := some (some (df.setCol dlr rs)) }
          | none => .err (.typeError "deg2rad") st5
        else .ok st5

/-- RoseDiagram.__init__ (geoplot.py lines 152-160). -/
def init (data : PyData) (k : Kargs) : POutcome RoseState :=
  let verbose := get_kargs k.verbose false            -- line 152
  let degrees := get_kargs k.degrees true             -- line 155
  let bin_width := get_kargs k.bin_width 10           -- line 156
  -- line 158: np.deg2rad(bin_width) when degrees, bin_width unchanged
  -- otherwise.
  let bin_width_rad :=
    if degrees then PyVal.rad bin_width else PyVal.num bin_width
  set_data { verbose := verbose, bin_width_rad := bin_width_rad } data k

/-- The arguments passed to the external histogram renderer sns.histplot
(geoplot.py lines 318-328). -/
structure HistParams where
  x : Option String
  hue : Option String
  binwidth : PyVal
  binrange_lo : PyVal
  binrange_hi : PyVal
  stat : String
  hue_order : Option (List String)
  multiple : String
  element : String
  edgecolor : String
  linewidth : ℚ
  palette : String
  alpha : ℚ
  shrink : ℚ
deriving DecidableEq, Repr

/-- The fixed angular grid of geoplot.py lines 294-295: ticks every
10 degrees plus the four cardinal directions. -/
def thetaAngles : List ℚ :=
  ((List.range 36).map (fun i => ((10 * i : ℕ) : ℚ))) ++ [0, 90, 180, 270]

/-- The labels of the fixed angular grid of geoplot.py lines 294-295. -/
def thetaLabels : List String :=
  ((List.range 36).map (fun i => toString (10 * i))) ++ ["N", "E", "S", "W"]

/-- The observable outcome of RoseDiagram.show: the polar axes
configuration, the delegated histogram layer (if any), and the final
labels. Purely graphical attributes such as the figure size are omitted. -/
structure ShowResult where
  theta_zero : String
  theta_dir : Int
  thetagrid_angles : List ℚ
  thetagrid_labels : List String
  hist : Option HistParams
  legend_moved : Bool
  rgrids_angle : ℚ
  xlabel : String
  ylabel : String
  ylabel_pad : ℚ
deriving DecidableEq, Repr

/-- RoseDiagram.show (geoplot.py lines 286-337). The fresh figure and polar
axes of lines 287-295 (North up, clockwise, fixed angular grid) appear in
every successful result; the ylabel combines the base label left by the
histogram layer (the statistic description when a histogram is drawn, empty
text otherwise) with the override logic of lines 334-336. -/
def rose_show (st : RoseState) (k : Kargs) : Except PyError ShowResult :=
  let stat_type := get_kargs k.stat_type "count"                    -- line 298
  let bin_shape := get_kargs k.bin_shape "bars"                     -- line 299
  let category_order := get_kargs k.category_order none             -- line 300
  let ci0 := get_kargs k.category_interaction "layer"               -- line 301
  let ci := if ci0 = "proportion" then "fill" else ci0              -- line 302
  -- line 303: the default argument self.direction_label is evaluated
  -- before get_kargs is called, so an unset attribute raises even when the
  -- keyword x_axis_label is supplied.
  match st.direction_label with
  | none => .error (.attributeError "direction_label")
  | some dl =>
    let x_axis_label := get_kargs k.x_axis_label dl                 -- line 303
    let y_axis_label := get_kargs k.y_axis_label (some "default")   -- line 304
    let y_axis_label_padding := get_kargs k.y_axis_label_padding 20 -- line 305
    let y_axis_angle := get_kargs k.y_axis_angle 0                  -- line 306
    let edge_color := get_kargs k.edge_color "k"                    -- line 307
    let edge_width := get_kargs k.edge_width (3 / 4)                -- line 308
    let color_palette := get_kargs k.color_palette "bright"         -- line 309
    let alpha := get_kargs k.alpha (3 / 4)                          -- line 310
    let shrink := get_kargs k.shrink 1                              -- line 311
    match st.data with                                              -- line 313
    | none => .error (.attributeError "data")
    | some none =>
      -- line 314: undefined dataset, the histogram layer is skipped and
      -- the axes keep their empty base ylabel.
      .ok { theta_zero := "N", theta_dir := -1,
            thetagrid_angles := thetaAngles, thetagrid_labels := thetaLabels,
            hist := none, legend_moved := false,
            rgrids_angle := y_axis_angle,
            xlabel := pyStr x_axis_label,
            ylabel := if y_axis_label = some "default" then ""
              else pyStr y_axis_label,
            ylabel_pad := y_axis_label_padding }
    | some (some _) =>
      match st.direction_label_rad with                             -- line 318
      | none => .error (.attributeError "direction_label_rad")
      | some dlr =>
        match st.category_label with                                -- line 318
        | none => .error (.attributeError "category_label")
        | some cat =>
          -- lines 318-330: the histogram layer is delegated to seaborn,
          -- which sets the statistic description as the base ylabel; the
          -- legend is relocated when a category column is set.
          .ok { theta_zero := "N", theta_dir := -1,
                thetagrid_angles := thetaAngles,
                thetagrid_labels := thetaLabels,
                hist := some {
                  x := dlr, hue := cat,
                  binwidth := st.bin_width_rad,                     -- line 319
                  binrange_lo := st.bin_width_rad.negHalf,
                  binrange_hi := .rad 360,                          -- 2 * π
                  stat := stat_type, hue_order := category_order,
                  multiple := ci, element := bin_shape,
                  edgecolor := edge_color, linewidth := edge_width,
                  palette := color_palette, alpha := alpha,
                  shrink := shrink },
                legend_moved := cat.isSome,
                rgrids_angle := y_axis_angle,
                xlabel := pyStr x_axis_label,
                ylabel := if y_axis_label = some "default" then
                    statDefaultLabel stat_type
                  else pyStr y_axis_label,
                ylabel_pad := y_axis_label_padding }

/-- The full record of arguments that show passes to sns.histplot
(geoplot.py lines 318-328), resolved from the stored bin width in radians
`bwr`, the keyword arguments of the show call, and the attribute values
`dlr` (direction_label_rad) and `cat` (category_label). -/
def histplotArgs (bwr : PyVal) (k : Kargs) (dlr cat : Option String) : HistParams :=
  { x := dlr, hue := cat, binwidth := bwr,
    binrange_lo := bwr.negHalf, binrange_hi := .rad 360,
    stat := get_kargs k.stat_type "count",
    hue_order := get_kargs k.category_order none,
    multiple := (if get_kargs k.category_interaction "layer" = "proportion"
      then "fill" else get_kargs k.category_interaction "layer"),
    element := get_kargs k.bin_shape "bars",
    edgecolor := get_kargs k.edge_color "k",
    linewidth := get_kargs k.edge_width (3 / 4),
    palette := get_kargs k.color_palette "bright",
    alpha := get_kargs k.alpha (3 / 4),
    shrink := get_kargs k.shrink 1 }

/-- The partially updated object state at the moment one of the two
validation asserts of set_data (lines 200 and 202) fires: the dataset
reference and the keyword direction label have already been assigned by
lines 196 and 199. -/
def stAtAssert (st : RoseState) (df : DataFrame) (k : Kargs) : RoseState :=
  { st with
      data := some (some df)
      direction_label := some (get_kargs k.direction_label none) }

/-- The attribute state produced by lines 152-158 of the constructor as a
function of the keyword arguments, before set_data runs. -/
def initState (k : Kargs) : RoseState :=
  { verbose := get_kargs k.verbose false,
    bin_width_rad := if get_kargs k.degrees true
      then PyVal.rad (get_kargs k.bin_width 10)
      else PyVal.num (get_kargs k.bin_width 10) }

/-! ### Concrete fixtures used by counterexamples and witnesses -/

/-- The attribute state produced by lines 152-158 of the constructor under
the default keyword arguments (verbose false, degrees true, bin width 10
degrees). -/
def baseState : RoseState := { verbose := false, bin_width_rad := .rad 10 }

/-- A one-row dataset with a single numeric direction column. -/
def dfDeg : DataFrame := ⟨[("a", [.num 30])]⟩

/-- A one-row dataset with two numeric columns "a" and "b". -/
def dfTwoCols : DataFrame := ⟨[("a", [.num 1]), ("b", [.num 2])]⟩

/-- A non-empty dataset with a single column whose first value is numeric
but whose second value is a string, so no column holds only numeric
values. -/
def dfNoNum : DataFrame := ⟨[("a", [.num 1, .str "x"])]⟩

/-- A dataset with one column and no rows (df.empty is true). -/
def dfEmpty : DataFrame := ⟨[("a", [])]⟩

/-- The object state produced by set_data on dfDeg with default keyword
arguments (and by the constructor on dfDeg, since the construction-time
attribute state under defaults is baseState). -/
def stDegW : RoseState :=
  { verbose := false, bin_width_rad := .rad 10,
    data := some (some ⟨[("a", [.num 30]), ("a_rad", [.rad 30])]⟩),
    direction_label := some (some "a"), category_label := some none,
    direction_label_rad := some (some "a_rad") }

/-- An object state whose dataset attribute holds Python None while the
label attributes are set: this is the state of a diagram built on dfDeg
and then reset by set_data(None). -/
def stNoneData : RoseState :=
  { verbose := false, bin_width_rad := .rad 10, data := some none,
    direction_label := some (some "a"), category_label := some none,
    direction_label_rad := some (some "a_rad") }

/-- The result of a show call on stNoneData with no keyword arguments: the
histogram layer is skipped and all defaults apply. -/
def resNoneW : ShowResult :=
  { theta_zero := "N", theta_dir := -1,
    thetagrid_angles := thetaAngles, thetagrid_labels := thetaLabels,
    hist := none, legend_moved := false, rgrids_angle := 0,
    xlabel := "a", ylabel := "", ylabel_pad := 20 }

/-- The keyword arguments of a show call that overrides only the
statistic type. -/
def k4W : Kargs := { stat_type := some "percent" }

/-- The histogram arguments of a show call on stDegW with the keyword
stat_type="percent". -/
def hp4W : HistParams :=
  { x := some "a_rad", hue := none, binwidth := .rad 10,
    binrange_lo := .rad (-(10 / 2)), binrange_hi := .rad 360,
    stat := "percent", hue_order := none, multiple := "layer",
    element := "bars", edgecolor := "k", linewidth := 3 / 4,
    palette := "bright", alpha := 3 / 4, shrink := 1 }

/-- The result of a show call on stDegW with the keyword
stat_type="percent". -/
def res4W : ShowResult :=
  { theta_zero := "N", theta_dir := -1,
    thetagrid_angles := thetaAngles, thetagrid_labels := thetaLabels,
    hist := some hp4W, legend_moved := false, rgrids_angle := 0,
    xlabel := "a", ylabel := "Percent", ylabel_pad := 20 }

/-! ### Helper lemmas -/

theorem deg2radSeries_forall₂ {ds rs : List PyVal}
    (h : deg2radSeries ds = some rs) :
    List.Forall₂ (fun d r => deg2radCell d = some r) ds rs := by
  induction ds generalizing rs with
  | nil =>
    simp only [deg2radSeries, Option.some.injEq] at h
    subst h
    exact .nil
  | cons v vs ih =>
    dsimp only [deg2radSeries] at h
    split at h
    · rename_i r rs' hr hrs
      cases h
      exact .cons hr (ih hrs)
    · exact absurd h (by simp)

theorem deg2radCell_denotes {d r : PyVal} (h : deg2radCell d = some r) (x : ℝ)
    (hx : d.denotes x) : r.denotes (x * Real.pi / 180) := by
  cases d with
  | num q =>
    simp only [deg2radCell, Option.some.injEq] at h
    subst h
    simp only [PyVal.denotes] at hx ⊢
    rw [hx]
  | rad c => simp [deg2radCell] at h
  | str s => simp [deg2radCell] at h
  | pynone => simp [deg2radCell] at h

theorem find?_setColAux_self (l : List (String × List PyVal)) (c : String)
    (vs : List PyVal) :
    (setColAux l c vs).find? (fun p => p.1 == c) = some (c, vs) := by
  induction l with
  | nil => simp [setColAux]
  | cons p ps ih =>
    cases hp : p.1 == c with
    | true => simp [setColAux, hp]
    | false =>
      simp only [setColAux, hp, Bool.false_eq_true, if_false]
      rw [List.find?_cons_of_neg _ (by simp [hp])]
      exact ih

theorem find?_setColAux_ne (l : List (String × List PyVal)) (c c' : String)
    (vs : List PyVal) (hne : (c' == c) = false) :
    (setColAux l c' vs).find? (fun p => p.1 == c) =
      l.find? (fun p => p.1 == c) := by
  induction l with
  | nil => simp [setColAux, hne]
  | cons p ps ih =>
    cases hp : p.1 == c' with
    | true =>
      have hpc : p.1 = c' := by simpa using hp
      simp only [setColAux, hp, if_true]
      rw [List.find?_cons_of_neg _ (by simp [hne]),
        List.find?_cons_of_neg _ (by simp [hpc, hne])]
    | false =>
      simp only [setColAux, hp, Bool.false_eq_true, if_false]
      cases hc : p.1 == c with
      | true =>
        rw [List.find?_cons_of_pos _ (by simpa using hc),
          List.find?_cons_of_pos _ (by simpa using hc)]
      | false =>
        rw [List.find?_cons_of_neg _ (by simp [hc]),
          List.find?_cons_of_neg _ (by simp [hc])]
        exact ih

theorem setColAux_names_fresh (l : List (String × List PyVal)) (c : String)
    (vs : List PyVal) (hnone : l.find? (fun p => p.1 == c) = none) :
    (setColAux l c vs).map (fun p => p.1) = l.map (fun p => p.1) ++ [c] := by
  induction l with
  | nil => simp [setColAux]
  | cons p ps ih =>
    rw [List.find?_cons] at hnone
    cases hp : p.1 == c with
    | true => simp [hp] at hnone
    | false =>
      rw [hp] at hnone
      simp only [setColAux, hp, Bool.false_eq_true, if_false, List.map_cons]
      rw [ih hnone]
      rfl

theorem getCol_setCol_self (df : DataFrame) (c : String) (vs : List PyVal) :
    (df.setCol c vs).getCol c = some vs := by
  unfold DataFrame.setCol DataFrame.getCol
  rw [find?_setColAux_self]
  rfl

theorem getCol_setCol_ne (df : DataFrame) (c c' : String) (vs : List PyVal)
    (hne : (c' == c) = false) :
    (df.setCol c' vs).getCol c = df.getCol c := by
  unfold DataFrame.setCol DataFrame.getCol
  rw [find?_setColAux_ne _ _ _ _ hne]

theorem names_setCol_fresh (df : DataFrame) (c : String) (vs : List PyVal)
    (h : df.getCol c = none) :
    (df.setCol c vs).names = df.names ++ [c] := by
  unfold DataFrame.getCol at h
  rw [Option.map_eq_none'] at h
  unfold DataFrame.setCol DataFrame.names
  exact setColAux_names_fresh _ _ _ h

theorem set_data_frame_ok {st st' : RoseState} {df : DataFrame} {k : Kargs}
    (h : set_data st (.frame df) k = .ok st') :
    df.isEmpty = false ∧
    ∃ dl rest, numberColumns df = dl :: rest ∧
      st'.verbose = st.verbose ∧
      st'.bin_width_rad = st.bin_width_rad ∧
      st'.direction_label = some (some dl) ∧
      st'.category_label = some (get_kargs k.category_label none) ∧
      ((get_kargs k.degrees true = true ∧
          st'.direction_label_rad = some (some (dl ++ "_rad")) ∧
          ∃ ds rs, df.getCol dl = some ds ∧ deg2radSeries ds = some rs ∧
            st'.data = some (some (df.setCol (dl ++ "_rad") rs)))
        ∨ (get_kargs k.degrees true = false ∧
            st'.direction_label_rad = some (some dl) ∧
            st'.data = some (some df))) := by
  dsimp only [set_data] at h
  by_cases hE : df.isEmpty = true
  · simp [hE] at h
  · have hE' : df.isEmpty = false := by simpa using hE
    refine ⟨hE', ?_⟩
    simp only [hE', Bool.false_eq_true, if_false] at h
    cases hnc : numberColumns df with
    | nil => rw [hnc] at h; simp at h
    | cons dl rest =>
      rw [hnc] at h
      dsimp only at h
      refine ⟨dl, rest, rfl, ?_⟩
      cases hdeg : get_kargs k.degrees true with
      | true =>
        simp only [hdeg, if_true] at h
        cases hcv : (df.getCol dl).bind deg2radSeries with
        | none => rw [hcv] at h; simp at h
        | some rs =>
          rw [hcv] at h
          dsimp only at h
          cases h
          cases hg : df.getCol dl with
          | none => rw [hg] at hcv; simp at hcv
          | some ds =>
            rw [hg] at hcv
            simp only [Option.some_bind] at hcv
            exact ⟨rfl, rfl, rfl, rfl, .inl ⟨rfl, rfl, ds, rs, rfl, hcv, rfl⟩⟩
      | false =>
        simp only [hdeg, Bool.false_eq_true, if_false] at h
        cases h
        exact ⟨rfl, rfl, rfl, rfl, .inr ⟨rfl, rfl, rfl⟩⟩

theorem rose_show_ok {st : RoseState} {k : Kargs} {res : ShowResult}
    (h : rose_show st k = .ok res) :
    ∃ dl, st.direction_label = some dl ∧
      res.theta_zero = "N" ∧ res.theta_dir = -1 ∧
      res.thetagrid_angles = thetaAngles ∧
      res.thetagrid_labels = thetaLabels ∧
      res.xlabel = pyStr (get_kargs k.x_axis_label dl) ∧
      res.rgrids_angle = get_kargs k.y_axis_angle 0 ∧
      res.ylabel_pad = get_kargs k.y_axis_label_padding 20 ∧
      ((st.data = some none ∧ res.hist = none ∧ res.legend_moved = false ∧
          res.ylabel = (if get_kargs k.y_axis_label (some "default") = some "default"
            then "" else pyStr (get_kargs k.y_axis_label (some "default"))))
       ∨ (∃ df dlr cat, st.data = some (some df) ∧
            st.direction_label_rad = some dlr ∧ st.category_label = some cat ∧
            res.hist = some (histplotArgs st.bin_width_rad k dlr cat) ∧
            res.legend_moved = cat.isSome ∧
            res.ylabel = (if get_kargs k.y_axis_label (some "default") = some "default"
              then statDefaultLabel (get_kargs k.stat_type "count")
              else pyStr (get_kargs k.y_axis_label (some "default"))))) := by
  dsimp only [rose_show] at h
  cases hdl : st.direction_label with
  | none => rw [hdl] at h; simp at h
  | some dl =>
    rw [hdl] at h
    dsimp only at h
    refine ⟨dl, rfl, ?_⟩
    cases hdata : st.data with
    | none => rw [hdata] at h; simp at h
    | some dataVal =>
      rw [hdata] at h
      cases dataVal with
      | none =>
        dsimp only at h
        cases h
        exact ⟨rfl, rfl, rfl, rfl, rfl, rfl, rfl, .inl ⟨rfl, rfl, rfl, rfl⟩⟩
      | some df =>
        dsimp only at h
        cases hdlr : st.direction_label_rad with
        | none => rw [hdlr] at h; simp at h
        | some dlr =>
          rw [hdlr] at h
          dsimp only at h
          cases hcat : st.category_label with
          | none => rw [hcat] at h; simp at h
          | some cat =>
            rw [hcat] at h
            dsimp only at h
            cases h
            exact ⟨rfl, rfl, rfl, rfl, rfl, rfl, rfl,
              .inr ⟨df, dlr, cat, rfl, rfl, rfl, rfl, rfl, rfl⟩⟩

theorem init_bin_width_rad {data0 : PyData} {k0 : Kargs} {st : RoseState}
    (h : init data0 k0 = .ok st) :
    st.bin_width_rad = (if get_kargs k0.degrees true
      then PyVal.rad (get_kargs k0.bin_width 10)
      else PyVal.num (get_kargs k0.bin_width 10)) := by
  cases data0 with
  | pynone =>
    dsimp only [init, set_data] at h
    split at h
    · simp at h
    · cases h; rfl
  | frame df =>
    dsimp only [init] at h
    obtain ⟨_, dl, rest, _, _, hb, _⟩ := set_data_frame_ok h
    rw [hb]
  | other s =>
    dsimp only [init, set_data] at h
    simp at h

/-! ### Claims -/

/-- C1: the claim says a caller-supplied direction_label names the resolved
direction column, and only in its absence is the first numeric column
chosen. The code contradicts the first branch (and its own docstring):
line 203 unconditionally overwrites the attribute with the first column
whose first value is numeric. Evaluated at the failing input: a frame with
numeric columns "a" and "b" and the explicit keyword direction_label="b"
resolves the direction column to "a". -/
theorem c1_supplied_direction_label_ignored :
    ∃ st, init (.frame dfTwoCols) { direction_label := some (some "b") } = .ok st ∧
      st.direction_label = some (some "a") ∧
      st.direction_label ≠ some (some "b") :=
  ⟨_, rfl, rfl, by decide⟩

/-- C2: the claim says construction with data=None (any options, verbose
included) and a subsequent show() never raise. The code raises: with
verbose=True the constructor reads the never-assigned attribute self.data
(line 192) and raises AttributeError; with the default options
construction succeeds but show() then evaluates the default argument
self.direction_label (line 303), which the None path of set_data never
assigned, and raises AttributeError before any axes are produced. -/
theorem c2_no_dataset_raises :
    init .pynone { verbose := some true } =
      .err (.attributeError "data") { verbose := true, bin_width_rad := .rad 10 } ∧
    ∃ st, init .pynone {} = .ok st ∧
      rose_show st {} = .error (.attributeError "direction_label") :=
  ⟨rfl, ⟨_, rfl, rfl⟩⟩

/-- C3: whenever set_data succeeds with the unit flag indicating degrees,
the stored frame carries a derived column named direction column + "_rad",
and its cells denote exactly d * π / 180 for the corresponding direction
values d of the original column. -/
theorem c3_degrees_adds_radian_column (st st' : RoseState) (df : DataFrame)
    (k : Kargs) (h : set_data st (.frame df) k = .ok st')
    (hdeg : get_kargs k.degrees true = true) :
    ∃ dl ds rs df', st'.direction_label = some (some dl) ∧
      st'.direction_label_rad = some (some (dl ++ "_rad")) ∧
      st'.data = some (some df') ∧
      df.getCol dl = some ds ∧
      df'.getCol (dl ++ "_rad") = some rs ∧
      List.Forall₂
        (fun d r => ∀ x : ℝ, d.denotes x → r.denotes (x * Real.pi / 180))
        ds rs := by
  obtain ⟨hE, dl, rest, hnc, hv, hb, hdl, hcatl, hbr⟩ := set_data_frame_ok h
  rcases hbr with ⟨_, hdlr, ds, rs, hg, hsr, hdata⟩ | ⟨hdeg', _, _⟩
  · refine ⟨dl, ds, rs, _, hdl, hdlr, hdata, hg, getCol_setCol_self df _ rs, ?_⟩
    exact List.Forall₂.imp
      (fun d r hdr x hx => deg2radCell_denotes hdr x hx)
      (deg2radSeries_forall₂ hsr)
  · rw [hdeg] at hdeg'
    exact absurd hdeg' (by simp)

/-- Witness for C3 at a one-row dataset in degrees mode: the value 30
degrees is stored as 30 * π / 180 in the derived column "a_rad". -/
theorem c3_degrees_adds_radian_column_witness :
    ∃ dl ds rs df', stDegW.direction_label = some (some dl) ∧
      stDegW.direction_label_rad = some (some (dl ++ "_rad")) ∧
      stDegW.data = some (some df') ∧
      dfDeg.getCol dl = some ds ∧
      df'.getCol (dl ++ "_rad") = some rs ∧
      List.Forall₂
        (fun d r => ∀ x : ℝ, d.denotes x → r.denotes (x * Real.pi / 180))
        ds rs :=
  c3_degrees_adds_radian_column baseState stDegW dfDeg {} (by decide) (by decide)

/-- C4 counterexample: a diagram constructed with the default bin width
(10 degrees) renders with that bin width even when the show call passes
the override bin_width=20: show never reads the bin_width keyword, so the
histogram of that call still uses 10 degrees in radians. -/
theorem c4_show_bin_width_override_ignored :
    ∃ res hp, rose_show stDegW { bin_width := some 20 } = .ok res ∧
      res.hist = some hp ∧ hp.binwidth = PyVal.rad 10 ∧
      hp.binwidth ≠ PyVal.rad 20 :=
  ⟨_, _, rfl, rfl, rfl, by decide⟩

/-- C4 amended: the display options read by show — statistic type, bin
shape, category order, category interaction mode, edge color and width,
palette, alpha, shrink, radial grid angle, label padding and the axis
labels — are resolved fresh on each call from that call's keyword
arguments and the documented defaults, but the angular bin width of the
histogram is the one resolved at construction time (from the
construction-time bin_width and degrees options, converted to radians when
degrees); a bin_width keyword passed to the show call itself is never
read. -/
theorem c4_options_fresh_but_bin_width_from_construction (data0 : PyData)
    (k0 k : Kargs) (st : RoseState) (res : ShowResult) (hp : HistParams)
    (hinit : init data0 k0 = .ok st) (hshow : rose_show st k = .ok res)
    (hh : res.hist = some hp) :
    hp.binwidth = (if get_kargs k0.degrees true
      then PyVal.rad (get_kargs k0.bin_width 10)
      else PyVal.num (get_kargs k0.bin_width 10)) ∧
    hp.stat = get_kargs k.stat_type "count" ∧
    hp.element = get_kargs k.bin_shape "bars" ∧
    hp.hue_order = get_kargs k.category_order none ∧
    hp.multiple = (if get_kargs k.category_interaction "layer" = "proportion"
      then "fill" else get_kargs k.category_interaction "layer") ∧
    hp.edgecolor = get_kargs k.edge_color "k" ∧
    hp.linewidth = get_kargs k.edge_width (3 / 4) ∧
    hp.palette = get_kargs k.color_palette "bright" ∧
    hp.alpha = get_kargs k.alpha (3 / 4) ∧
    hp.shrink = get_kargs k.shrink 1 ∧
    res.rgrids_angle = get_kargs k.y_axis_angle 0 ∧
    res.ylabel_pad = get_kargs k.y_axis_label_padding 20 ∧
    (∃ dl, st.direction_label = some dl ∧
      res.xlabel = pyStr (get_kargs k.x_axis_label dl)) ∧
    res.ylabel = (if get_kargs k.y_axis_label (some "default") = some "default"
      then statDefaultLabel (get_kargs k.stat_type "count")
      else pyStr (get_kargs k.y_axis_label (some "default"))) := by
  obtain ⟨dl, hdl, _, _, _, _, hx, hang, hpad, hbr⟩ := rose_show_ok hshow
  rcases hbr with ⟨_, hnone, _, _⟩ | ⟨df, dlr, cat, _, _, _, hhist, _, hy⟩
  · rw [hnone] at hh
    exact absurd hh (by simp)
  · rw [hhist] at hh
    have hhp : hp = histplotArgs st.bin_width_rad k dlr cat := by
      injection hh with h1
      exact h1.symm
    subst hhp
    refine ⟨?_, rfl, rfl, rfl, rfl, rfl, rfl, rfl, rfl, rfl, hang, hpad,
      ⟨dl, hdl, hx⟩, hy⟩
    show st.bin_width_rad = _
    exact init_bin_width_rad hinit

/-- Witness for C4 amended: a diagram built on dfDeg with defaults and
rendered with stat_type="percent" uses the construction-time bin width,
the per-call statistic and the per-call defaults of every other display
option. -/
theorem c4_options_fresh_witness :
    hp4W.binwidth = (if get_kargs (({} : Kargs).degrees) true
      then PyVal.rad (get_kargs (({} : Kargs).bin_width) 10)
      else PyVal.num (get_kargs (({} : Kargs).bin_width) 10)) ∧
    hp4W.stat = get_kargs k4W.stat_type "count" ∧
    hp4W.element = get_kargs k4W.bin_shape "bars" ∧
    hp4W.hue_order = get_kargs k4W.category_order none ∧
    hp4W.multiple = (if get_kargs k4W.category_interaction "layer" = "proportion"
      then "fill" else get_kargs k4W.category_interaction "layer") ∧
    hp4W.edgecolor = get_kargs k4W.edge_color "k" ∧
    hp4W.linewidth = get_kargs k4W.edge_width (3 / 4) ∧
    hp4W.palette = get_kargs k4W.color_palette "bright" ∧
    hp4W.alpha = get_kargs k4W.alpha (3 / 4) ∧
    hp4W.shrink = get_kargs k4W.shrink 1 ∧
    res4W.rgrids_angle = get_kargs k4W.y_axis_angle 0 ∧
    res4W.ylabel_pad = get_kargs k4W.y_axis_label_padding 20 ∧
    (∃ dl, stDegW.direction_label = some dl ∧
      res4W.xlabel = pyStr (get_kargs k4W.x_axis_label dl)) ∧
    res4W.ylabel = (if get_kargs k4W.y_axis_label (some "default") = some "default"
      then statDefaultLabel (get_kargs k4W.stat_type "count")
      else pyStr (get_kargs k4W.y_axis_label (some "default"))) :=
  c4_options_fresh_but_bin_width_from_construction (.frame dfDeg) {} k4W
    stDegW res4W hp4W (by decide) (by rfl) (by rfl)

/-- C5: an empty dataset (a frame with no rows) always raises the
InvalidInput condition: the assert of line 200 fails, both when set_data
is called directly and when the frame is passed to the constructor. -/
theorem c5_empty_dataset_raises (st : RoseState) (df : DataFrame) (k : Kargs)
    (h : df.isEmpty = true) :
    set_data st (.frame df) k =
      .err (.assertionError "data_nonempty") (stAtAssert st df k) ∧
    init (.frame df) k =
      .err (.assertionError "data_nonempty") (stAtAssert (initState k) df k) := by
  constructor
  · dsimp only [set_data]
    simp [h, stAtAssert]
  · dsimp only [init, set_data]
    simp [h, stAtAssert, initState]

/-- Witness for C5 at a concrete frame with one column and no rows. -/
theorem c5_empty_dataset_raises_witness :
    set_data baseState (.frame dfEmpty) {} =
      .err (.assertionError "data_nonempty") (stAtAssert baseState dfEmpty {}) ∧
    init (.frame dfEmpty) {} =
      .err (.assertionError "data_nonempty")
        (stAtAssert (initState {}) dfEmpty {}) :=
  c5_empty_dataset_raises baseState dfEmpty {} (by decide)

/-- C6 counterexample: the claim says a non-empty dataset with no column
whose values are all numeric always raises InvalidInput. The code checks
only the first value of each column (line 201): on dfNoNum, whose single
column holds a number followed by a string, set_data in radians mode
succeeds and resolves that column as the direction column. -/
theorem c6_mixed_column_accepted :
    dfNoNum.isEmpty = false ∧
    (∀ p ∈ dfNoNum.cols, ¬ ∀ v ∈ p.2, v.isNumber = true) ∧
    ∃ st, set_data baseState (.frame dfNoNum) { degrees := some false } = .ok st ∧
      st.direction_label = some (some "a") :=
  ⟨rfl, by decide, ⟨_, rfl, rfl⟩⟩

/-- C6 amended: set_data validates numeric-ness by the first row only: for
a non-empty dataset it raises the InvalidInput condition of line 202
exactly when no column's first value is numeric. A column whose first
value is numeric is accepted as the direction column even when its later
values are not (in degrees mode the conversion then fails with a
TypeError, not with the InvalidInput assert). -/
theorem c6_invalid_iff_no_numeric_first_value (st : RoseState) (df : DataFrame)
    (k : Kargs) (hne : df.isEmpty = false) :
    set_data st (.frame df) k =
        .err (.assertionError "number_column_exists") (stAtAssert st df k)
      ↔ numberColumns df = [] := by
  constructor
  · intro h
    dsimp only [set_data] at h
    simp only [hne, Bool.false_eq_true, if_false] at h
    cases hnc : numberColumns df with
    | nil => rfl
    | cons dl rest =>
      rw [hnc] at h
      dsimp only at h
      exfalso
      cases hdeg : get_kargs k.degrees true with
      | true =>
        simp only [hdeg, if_true] at h
        cases hcv : (df.getCol dl).bind deg2radSeries with
        | none => rw [hcv] at h; simp at h
        | some rs => rw [hcv] at h; simp at h
      | false =>
        simp only [hdeg, Bool.false_eq_true, if_false] at h
        simp at h
  · intro hnc
    dsimp only [set_data]
    simp [hne, hnc, stAtAssert]

/-- Witness for C6 amended at dfNoNum, whose single column has a numeric
first value, so neither side of the equivalence holds. -/
theorem c6_invalid_iff_no_numeric_first_value_witness :
    set_data baseState (.frame dfNoNum) {} =
        .err (.assertionError "number_column_exists")
          (stAtAssert baseState dfNoNum {})
      ↔ numberColumns dfNoNum = [] :=
  c6_invalid_iff_no_numeric_first_value baseState dfNoNum {} (by decide)

/-- C7: a present data value that is not a DataFrame (modelled by
PyData.other, e.g. a plain list or a number) makes set_data fail at the
isinstance check of line 195, synchronously and before any attribute is
modified: the error state is the unchanged input state. In CPython the
concrete exception class is TypeError, raised while the failing assert
builds its message (a str is concatenated with a type object); it is the
InvalidInput condition the spec assigns to a wrong argument type. The same
failure happens through the constructor, where the dataset attribute is
never assigned. -/
theorem c7_non_tabular_raises (st : RoseState) (s : String) (k kc : Kargs) :
    set_data st (.other s) k = .err (.typeError "assert_message_concat") st ∧
    ∃ st0, init (.other s) kc = .err (.typeError "assert_message_concat") st0 ∧
      st0.data = none :=
  ⟨rfl, ⟨_, rfl, rfl⟩⟩

/-- C8 counterexample: the claim says every explicitly supplied
y_axis_label value v ends up as the radial-axis label. The code uses the
string "default" as an in-band sentinel (lines 304 and 334): supplying
exactly y_axis_label="default" is indistinguishable from supplying
nothing, so the label becomes the statistic description "Count" instead
of "default". -/
theorem c8_default_sentinel_collision :
    ∃ res, rose_show stDegW { y_axis_label := some (some "default") } = .ok res ∧
      res.ylabel = "Count" ∧ res.ylabel ≠ "default" :=
  ⟨_, rfl, rfl, by decide⟩

/-- C8 amended: after a successful show call, the radial-axis label equals
the explicitly supplied y_axis_label value (an explicit Python None gives
the empty label) for every supplied value other than the reserved sentinel
string "default"; when no value is supplied, or the literal "default" is
supplied, the label is the statistic-dependent default left by the
histogram layer (empty when the histogram layer was skipped). -/
theorem c8_y_axis_label_resolution (st : RoseState) (k : Kargs)
    (res : ShowResult) (h : rose_show st k = .ok res) :
    res.ylabel = (if get_kargs k.y_axis_label (some "default") = some "default"
      then (if res.hist.isSome
        then statDefaultLabel (get_kargs k.stat_type "count") else "")
      else pyStr (get_kargs k.y_axis_label (some "default"))) := by
  obtain ⟨dl, hdl, _, _, _, _, _, _, _, hbr⟩ := rose_show_ok h
  rcases hbr with ⟨_, hh, _, hy⟩ | ⟨df, dlr, cat, _, _, _, hh, _, hy⟩ <;>
    rw [hy, hh] <;> simp

/-- Witness for C8 amended: a show call with no keyword arguments on a
diagram whose dataset was reset to None keeps the empty base label. -/
theorem c8_y_axis_label_resolution_witness :
    resNoneW.ylabel =
      (if get_kargs (({} : Kargs).y_axis_label) (some "default") = some "default"
        then (if resNoneW.hist.isSome
          then statDefaultLabel (get_kargs (({} : Kargs).stat_type) "count") else "")
        else pyStr (get_kargs (({} : Kargs).y_axis_label) (some "default"))) :=
  c8_y_axis_label_resolution stNoneData {} resNoneW (by rfl)

/-- C9: for every successful set_data call on a frame with no pre-existing
column named direction + "_rad", all pre-existing columns keep their
values; in degrees mode the column list is extended by exactly the derived
radian column at the end, and in radians mode the frame is unchanged and
the radian attribute points at the original direction column. -/
theorem c9_dataset_side_effect (st st' : RoseState) (df : DataFrame)
    (k : Kargs) (dl : String)
    (h : set_data st (.frame df) k = .ok st')
    (hdl : st'.direction_label = some (some dl))
    (hfresh : df.getCol (dl ++ "_rad") = none) :
    ∃ df', st'.data = some (some df') ∧
      (∀ c vs, df.getCol c = some vs → df'.getCol c = some vs) ∧
      (get_kargs k.degrees true = true →
        df'.names = df.names ++ [dl ++ "_rad"]) ∧
      (get_kargs k.degrees true = false →
        df' = df ∧ st'.direction_label_rad = some (some dl)) := by
  obtain ⟨hE, dl0, rest, hnc, hv, hb, hdl0, hcat, hbr⟩ := set_data_frame_ok h
  have hdleq : dl0 = dl := by
    rw [hdl0] at hdl
    injection hdl with h1
    injection h1
  subst hdleq
  rcases hbr with ⟨hdeg, hdlr, ds, rs, hg, hsr, hdata⟩ | ⟨hdeg, hdlr, hdata⟩
  · refine ⟨_, hdata, ?_, fun _ => names_setCol_fresh df _ rs hfresh, fun hf => ?_⟩
    · intro c vs hc
      have hne : ((dl0 ++ "_rad") == c) = false := by
        rw [beq_eq_false_iff_ne]
        intro heq
        rw [← heq, hfresh] at hc
        exact Option.noConfusion hc
      rw [getCol_setCol_ne df c (dl0 ++ "_rad") rs hne]
      exact hc
    · rw [hdeg] at hf
      exact absurd hf (by simp)
  · refine ⟨df, hdata, fun c vs hc => hc, fun ht => ?_, fun _ => ⟨rfl, hdlr⟩⟩
    rw [hdeg] at ht
    exact absurd ht (by simp)

/-- Witness for C9 at dfDeg in degrees mode: the stored frame keeps column
"a" and gains exactly the column "a_rad". -/
theorem c9_dataset_side_effect_witness :
    ∃ df', stDegW.data = some (some df') ∧
      (∀ c vs, dfDeg.getCol c = some vs → df'.getCol c = some vs) ∧
      (get_kargs (({} : Kargs).degrees) true = true →
        df'.names = dfDeg.names ++ ["a" ++ "_rad"]) ∧
      (get_kargs (({} : Kargs).degrees) true = false →
        df' = dfDeg ∧ stDegW.direction_label_rad = some (some "a")) :=
  c9_dataset_side_effect baseState stDegW dfDeg {} "a" (by decide) (by decide)
    (by decide)

/-- C10: set_data is not atomic on validation failure: when a frame is
empty or has no column with a numeric first value, the dataset attribute
has already been replaced by the invalid frame (line 196) when the assert
of line 200 or 202 fires, so the error state stores the invalid frame and
differs from the pre-call state whenever the latter stored anything
else. -/
theorem c10_set_data_not_atomic (st : RoseState) (df : DataFrame) (k : Kargs)
    (h : df.isEmpty = true ∨ numberColumns df = []) :
    ∃ e, set_data st (.frame df) k = .err e (stAtAssert st df k) ∧
      (stAtAssert st df k).data = some (some df) ∧
      (st.data ≠ some (some df) → stAtAssert st df k ≠ st) := by
  have hlast : st.data ≠ some (some df) → stAtAssert st df k ≠ st := by
    intro hne heq
    exact hne (heq ▸ rfl)
  by_cases hEm : df.isEmpty = true
  · refine ⟨.assertionError "data_nonempty", ?_, rfl, hlast⟩
    dsimp only [set_data]
    simp [hEm, stAtAssert]
  · have hEm' : df.isEmpty = false := by simpa using hEm
    have hnc : numberColumns df = [] := h.resolve_left hEm
    refine ⟨.assertionError "number_column_exists", ?_, rfl, hlast⟩
    dsimp only [set_data]
    simp [hEm', hnc, stAtAssert]

/-- Witness for C10 at the empty frame and a fresh construction-time state:
the error state stores the empty frame while the pre-call state stored no
dataset at all. -/
theorem c10_set_data_not_atomic_witness :
    ∃ e, set_data baseState (.frame dfEmpty) {} =
        .err e (stAtAssert baseState dfEmpty {}) ∧
      (stAtAssert baseState dfEmpty {}).data = some (some dfEmpty) ∧
      (baseState.data ≠ some (some dfEmpty) →
        stAtAssert baseState dfEmpty {} ≠ baseState) :=
  c10_set_data_not_atomic baseState dfEmpty {} (Or.inl (by decide))
